import Mathlib

/-!
Verification of the declaration-generation script of rascaline
(`python/scripts/generate-declarations.py`).

The script walks a pycparser AST of the public C header and produces ctypes
binding declarations.  We embed the AST node shapes the script inspects, the
name-resolution function `c_type_name`, the recursive type translator
`type_to_ctypes` (with `funcdecl_to_ctypes` inlined at its two call sites),
the collector methods `visit_Decl` / `visit_Typedef`, the raw-text
`#define` scan of `parse`, and the per-declaration pieces of
`generate_structs` / `generate_functions`.

Python runtime failures are modelled explicitly: `raise Exception(msg)`,
failed `assert`, attribute access on an object lacking the attribute
(including `None`), and out-of-range list indexing.
-/

namespace GenDecl

/-- Constant / expression nodes appearing as array dimensions and enumerator
values (`c_ast.Constant` carries its literal text in `.value`; other
expression nodes such as identifiers and binary operations have no `.value`
attribute). -/
inductive CExpr : Type where
  | constant (value : String)
  | identifier (name : String)
  | binaryOp (op : String) (lhs rhs : CExpr)
deriving DecidableEq

/-- The pycparser type-node shapes inspected by the script: `TypeDecl`
(wrapping an `IdentifierType`, `Struct`, `Enum` or `Union`), `PtrDecl`,
`ArrayDecl` (with an optional dimension expression) and `FuncDecl`.
A `FuncDecl` node here carries its return type node (`.type` in pycparser)
and the type of each parameter (`.type` of each entry of `.args.params`). -/
inductive CType : Type where
  | typeDecl (inner : CType)
  | identType (names : List String)
  | structType (name : Option String)
  | enumType (name : Option String)
  | unionType (name : Option String)
  | ptrDecl (inner : CType)
  | arrayDecl (inner : CType) (dim : Option CExpr)
  | funcDecl (ret : CType) (params : List CType)

/-- The ways the Python script can abort: an explicit `raise Exception(msg)`,
a failed `assert`, an `AttributeError` (attribute named by the argument), and
an `IndexError` from out-of-range list indexing. -/
inductive PyError : Type where
  | exception (msg : String)
  | assertionError
  | attributeError (attr : String)
  | indexError
deriving DecidableEq

/-- Python's `str.startswith`: a prefix test, phrased on the character
lists underlying the strings. -/
def pyStartswith (s pre : String) : Bool :=
  pre.data.isPrefixOf s.data

/-- Python's substring test `pat in s`, phrased on character lists: some
suffix of `s` has `pat` as a prefix. -/
def listContainsSubstr (pat : List Char) : List Char → Bool
  | [] => pat.isEmpty
  | c :: rest => pat.isPrefixOf (c :: rest) || listContainsSubstr pat rest

/-- `c_type_name` from the script: maps a bare C type name to the generated
ctypes identifier. -/
def c_type_name (name : String) : String :=
  if pyStartswith name "rascal_" then
    if name = "rascal_indexes_kind" then "ctypes.c_int" else name
  else if pyStartswith name "eqs_" then name
  else if name = "uintptr_t" then "c_uintptr_t"
  else if name = "void" then "None"
  else if name = "int32_t" then "ctypes.c_int32"
  else if name = "uint32_t" then "ctypes.c_uint32"
  else if name = "int64_t" then "ctypes.c_int64"
  else if name = "uint64_t" then "ctypes.c_uint64"
  else "ctypes.c_" ++ name

/-- `_typedecl_name` from the script: asserts its argument is a `TypeDecl`;
returns the wrapped `Struct` or `Enum` node's name (possibly `None` for an
anonymous one), otherwise asserts the wrapped node's `.names` list has
exactly one entry and returns it.  A wrapped node with no `.names`
attribute (e.g. a `Union`) raises an `AttributeError`. -/
def typedeclName : CType → Except PyError (Option String)
  | CType.typeDecl inner =>
      match inner with
      | CType.structType name => Except.ok name
      | CType.enumType name => Except.ok name
      | CType.identType names =>
          match names with
          | [n] => Except.ok (some n)
          | _ => Except.error PyError.assertionError
      | _ => Except.error (PyError.attributeError "names")
  | _ => Except.error PyError.assertionError

/-- Applying `c_type_name` to the result of `_typedecl_name`: on a `None`
name (anonymous struct/enum) the Python call `name.startswith(...)` raises
an `AttributeError`. -/
def cTypeNameOpt : Option String → Except PyError String
  | none => Except.error (PyError.attributeError "startswith")
  | some n => Except.ok (c_type_name n)

mutual

/-- `type_to_ctypes` from the script: translate one C type node into the
ctypes expression string, with the `ndpointer` flag selecting the
numpy-buffer convention for double pointers.  The helper
`funcdecl_to_ctypes` of the script is inlined at its two call sites (the
pointer-to-function branch and the bare-function branch); note that the
array branch recurses with the default `ndpointer=False`, exactly as the
source's `f"{type_to_ctypes(type.type)} * {size}"` does. -/
def type_to_ctypes (t : CType) (ndp : Bool) : Except PyError String :=
  match t with
  | CType.ptrDecl inner =>
      match inner with
      | CType.ptrDecl inner2 =>
          match inner2 with
          | CType.typeDecl _ =>
              match typedeclName inner2 with
              | Except.error e => Except.error e
              | Except.ok nameOpt =>
                  if nameOpt = some "char" then Except.ok "POINTER(ctypes.c_char_p)"
                  else
                    match cTypeNameOpt nameOpt with
                    | Except.error e => Except.error e
                    | Except.ok n =>
                        if ndp then
                          Except.ok ("POINTER(ndpointer(" ++ n ++ ", flags=\x27C_CONTIGUOUS\x27))")
                        else
                          Except.ok ("POINTER(POINTER(" ++ n ++ "))")
          | _ => Except.error (PyError.exception "Unknown type")
      | CType.typeDecl _ =>
          match typedeclName inner with
          | Except.error e => Except.error e
          | Except.ok nameOpt =>
              if nameOpt = some "void" then Except.ok "ctypes.c_void_p"
              else if nameOpt = some "char" then Except.ok "ctypes.c_char_p"
              else
                match cTypeNameOpt nameOpt with
                | Except.error e => Except.error e
                | Except.ok n => Except.ok ("POINTER(" ++ n ++ ")")
      | CType.funcDecl ret params =>
          match type_to_ctypes ret ndp with
          | Except.error e => Except.error e
          | Except.ok restype =>
              match params_to_ctypes params ndp with
              | Except.error e => Except.error e
              | Except.ok args =>
                  Except.ok ("CFUNCTYPE(" ++ restype ++ ", " ++ String.intercalate ", " args ++ ")")
      | _ => Except.error (PyError.exception "Unknown type")
  | CType.typeDecl inner =>
      match typedeclName (CType.typeDecl inner) with
      | Except.error e => Except.error e
      | Except.ok nameOpt =>
          match cTypeNameOpt nameOpt with
          | Except.error e => Except.error e
          | Except.ok n => Except.ok n
  | CType.identType names =>
      match names with
      | [] => Except.error PyError.indexError
      | n :: _ => Except.ok (c_type_name n)
  | CType.arrayDecl inner dim =>
      match dim with
      | some (CExpr.constant size) =>
          match type_to_ctypes inner false with
          | Except.error e => Except.error e
          | Except.ok s => Except.ok (s ++ " * " ++ size)
      | _ => Except.error (PyError.exception "dynamically sized arrays are not supported")
  | CType.funcDecl ret params =>
      match type_to_ctypes ret ndp with
      | Except.error e => Except.error e
      | Except.ok restype =>
          match params_to_ctypes params ndp with
          | Except.error e => Except.error e
          | Except.ok args =>
              Except.ok ("CFUNCTYPE(" ++ restype ++ ", " ++ String.intercalate ", " args ++ ")")
  | _ => Except.error (PyError.exception "Unknown type")
termination_by structural t

/-- The parameter-list comprehension `[type_to_ctypes(t.type, ndpointer) for
t in type.args.params]` of `funcdecl_to_ctypes`: translate each parameter
type in order, propagating the first failure. -/
def params_to_ctypes (ps : List CType) (ndp : Bool) : Except PyError (List String) :=
  match ps with
  | [] => Except.ok []
  | p :: rest =>
      match type_to_ctypes p ndp with
      | Except.error e => Except.error e
      | Except.ok s =>
          match params_to_ctypes rest ndp with
          | Except.error e => Except.error e
          | Except.ok ss => Except.ok (s :: ss)
termination_by structural ps

end

/-- The script's `Function` record: name, return type node, parameter type
nodes in declaration order. -/
structure Function where
  name : String
  restype : CType
  args : List CType

/-- The script's `Struct` record: name and ordered (field name, type node)
members. -/
structure Struct where
  name : String
  members : List (String × CType)

/-- The script's `Enum` record: name and ordered (member name, literal value
text) pairs. -/
structure Enum where
  name : String
  values : List (String × String)

/-- The mutable state of `AstVisitor`, plus the `defines` map filled in by
`parse`. -/
structure Visitor where
  functions : List Function
  enums : List Enum
  structs : List Struct
  types : List (String × CType)
  defines : List (String × String)

/-- The `AstVisitor.__init__` state: everything empty. -/
def initVisitor : Visitor := Visitor.mk [] [] [] [] []

/-- One enumerator of a parsed `c_ast.Enum`: its name and its optional value
expression (`None` when the C source omits the value). -/
structure Enumerator where
  name : String
  value : Option CExpr
deriving DecidableEq

/-- The three shapes `visit_Typedef` distinguishes for `node.type.type`:
an `Enum` (with its enumerator list), a `Struct` (with its member
declarations), or anything else. -/
inductive TypedefBody where
  | enumBody (enumerators : List Enumerator)
  | structBody (members : List (String × CType))
  | other (underlying : CType)

/-- `AstVisitor.visit_Decl`: skip unless the declaration name starts with
`rascal_`; otherwise record a `Function` with the declared return type node
and the parameter type nodes in order. -/
def visit_Decl (st : Visitor) (name : String) (declRet : CType) (declParams : List CType) : Visitor :=
  if pyStartswith name "rascal_" then
    Visitor.mk (st.functions ++ [Function.mk name declRet declParams])
      st.enums st.structs st.types st.defines
  else st

/-- The enumerator loop of `visit_Typedef`:
`enum.add_value(enumerator.name, enumerator.value.value)` for each
enumerator.  Reading `.value` on an enumerator whose value is `None`, or on
a value node that is not a `Constant`, raises an `AttributeError`; on a
`Constant` the stored text is the literal exactly as written. -/
def collectEnumValues : List Enumerator → Except PyError (List (String × String))
  | [] => Except.ok []
  | e :: es =>
      match e.value with
      | some (CExpr.constant v) =>
          match collectEnumValues es with
          | Except.error err => Except.error err
          | Except.ok vs => Except.ok ((e.name, v) :: vs)
      | _ => Except.error (PyError.attributeError "value")

/-- `AstVisitor.visit_Typedef`: skip unless the typedef name starts with
`rascal_`; an underlying `Enum` is collected through `collectEnumValues`, an
underlying `Struct` records its (member name, type node) pairs, and any
other underlying node is stored in the `types` alias map. -/
def visit_Typedef (st : Visitor) (name : String) (body : TypedefBody) : Except PyError Visitor :=
  if pyStartswith name "rascal_" then
    match body with
    | TypedefBody.enumBody es =>
        match collectEnumValues es with
        | Except.error e => Except.error e
        | Except.ok vals =>
            Except.ok (Visitor.mk st.functions (st.enums ++ [Enum.mk name vals])
              st.structs st.types st.defines)
    | TypedefBody.structBody ms =>
        Except.ok (Visitor.mk st.functions st.enums (st.structs ++ [Struct.mk name ms])
          st.types st.defines)
    | TypedefBody.other u =>
        Except.ok (Visitor.mk st.functions st.enums st.structs (st.types ++ [(name, u)])
          st.defines)
  else Except.ok st

/-- Helper for `pySplit`: walk the characters, accumulating the (reversed)
current token; whitespace finishes the token, empty tokens are dropped. -/
def splitWsAux : List Char → List Char → List String
  | [], acc => if acc.isEmpty then [] else [String.mk acc.reverse]
  | c :: cs, acc =>
      if c.isWhitespace then
        if acc.isEmpty then splitWsAux cs []
        else String.mk acc.reverse :: splitWsAux cs []
      else splitWsAux cs (c :: acc)

/-- Python's argumentless `str.split()`: split on runs of whitespace,
dropping empty pieces. -/
def pySplit (line : String) : List String :=
  splitWsAux line.data []

/-- Python's substring test `"#define" in line` on the raw header line. -/
def containsDefine (line : String) : Bool :=
  listContainsSubstr "#define".data line.data

/-- Python dict assignment `d[k] = v` preserving insertion order: an
existing key keeps its position and gets the new value, a new key is
appended. -/
def dictInsert (d : List (String × String)) (k v : String) : List (String × String) :=
  if d.any (fun p => p.1 = k) then d.map (fun p => if p.1 = k then (k, v) else p)
  else d ++ [(k, v)]

/-- One iteration of the `#define` scan loop in `parse`: on a line containing
`#define`, split it, read token 1 as the macro name (an out-of-range read is
an `IndexError`), skip the include-guard name `RASCALINE_H`, read token 2 as
the value (again an `IndexError` if missing) and store the pair. -/
def scanLine (d : List (String × String)) (line : String) : Except PyError (List (String × String)) :=
  if containsDefine line then
    match (pySplit line)[1]? with
    | none => Except.error PyError.indexError
    | some name =>
        if name = "RASCALINE_H" then Except.ok d
        else
          match (pySplit line)[2]? with
          | none => Except.error PyError.indexError
          | some value => Except.ok (dictInsert d name value)
  else Except.ok d

/-- The whole `#define` scan loop of `parse`, over the header's raw text
lines in order. -/
def scanDefines : List String → List (String × String) → Except PyError (List (String × String))
  | [], d => Except.ok d
  | line :: rest, d =>
      match scanLine d line with
      | Except.error e => Except.error e
      | Except.ok d2 => scanDefines rest d2

/-- The macro-constant map produced by `parse` from the header's raw text
lines (starting from the empty `defines` dict of the fresh visitor). -/
def parseDefines (lines : List String) : Except PyError (List (String × String)) :=
  scanDefines lines []

/-- The argtypes computation of `generate_functions` for one function:
translate every argument with the default flag, then collapse the list to
empty when it is exactly `["None"]` (a sole `void` parameter). -/
def function_argtypes (args : List CType) : Except PyError (List String) :=
  match params_to_ctypes args false with
  | Except.error e => Except.error e
  | Except.ok strs => Except.ok (if strs = ["None"] then [] else strs)

/-- The restype computation of `generate_functions` for one function:
translate the return type with the default flag, then replace the designated
status type `rascal_status_t` by the checking adapter
`_check_rascal_status_t`. -/
def function_restype (ret : CType) : Except PyError String :=
  match type_to_ctypes ret false with
  | Except.error e => Except.error e
  | Except.ok r => Except.ok (if r = "rascal_status_t" then "_check_rascal_status_t" else r)

/-- Struct-field translation context: `generate_structs` calls
`type_to_ctypes(type, True)` on every field type. -/
def struct_field_ctype (t : CType) : Except PyError String := type_to_ctypes t true

/-- Function argument translation context: `generate_functions` calls
`type_to_ctypes(arg)` with the default `ndpointer=False`. -/
def function_arg_ctype (t : CType) : Except PyError String := type_to_ctypes t false

/-- A `TypeDecl` node wrapping a resolvable name: a single-token identifier
list, or a named (non-anonymous) struct or enum reference.  These are the
named-element shapes of the spec grammar (rules 6 to 8 of spec section 4.2). -/
inductive NamedElem : CType → Prop where
  | ident (n : String) : NamedElem (CType.typeDecl (CType.identType [n]))
  | structRef (n : String) : NamedElem (CType.typeDecl (CType.structType (some n)))
  | enumRef (n : String) : NamedElem (CType.typeDecl (CType.enumType (some n)))

/-- Modelled from the spec, for comparison with the code: the supported
shape grammar of spec section 4.2 (rules 1 to 10) — bare named elements,
pointers and double pointers to named elements, pointers to functions,
bare function types over supported returns/parameters, and fixed-size
arrays with a literal constant dimension.  Used to state the totality half
of claim C3. -/
inductive SpecSupported : CType → Prop where
  | bare {t : CType} : NamedElem t → SpecSupported t
  | ptrNamed {t : CType} : NamedElem t → SpecSupported (CType.ptrDecl t)
  | ptrPtrNamed {t : CType} : NamedElem t → SpecSupported (CType.ptrDecl (CType.ptrDecl t))
  | ptrFunc {ret : CType} {params : List CType} :
      SpecSupported ret → (∀ p ∈ params, SpecSupported p) →
      SpecSupported (CType.ptrDecl (CType.funcDecl ret params))
  | func {ret : CType} {params : List CType} :
      SpecSupported ret → (∀ p ∈ params, SpecSupported p) →
      SpecSupported (CType.funcDecl ret params)
  | array {elem : CType} {v : String} :
      SpecSupported elem → SpecSupported (CType.arrayDecl elem (some (CExpr.constant v)))

/-- Characterization of an enumerator list in which every enumerator
carries an explicit literal `Constant` value: returns the ordered
(name, literal) pairs, or `none` as soon as one enumerator has no value or
a non-literal value. -/
def enumLiterals : List Enumerator → Option (List (String × String))
  | [] => some []
  | e :: es =>
      match e.value with
      | some (CExpr.constant v) => (enumLiterals es).map (fun vs => (e.name, v) :: vs)
      | _ => none

/-- Evaluation of `type_to_ctypes` on a single pointer to a `TypeDecl`
whose name resolves: the `void`, `char` and generic-pointer branches of the
source. -/
lemma ptr_typeDecl_eval (inner : CType) (n : String)
    (h : typedeclName (CType.typeDecl inner) = Except.ok (some n)) (ndp : Bool) :
    type_to_ctypes (CType.ptrDecl (CType.typeDecl inner)) ndp =
      if n = "void" then Except.ok "ctypes.c_void_p"
      else if n = "char" then Except.ok "ctypes.c_char_p"
      else Except.ok ("POINTER(" ++ c_type_name n ++ ")") := by
  simp [type_to_ctypes, h, cTypeNameOpt]

/-- Evaluation of `type_to_ctypes` on a double pointer to a `TypeDecl`
whose name resolves: the `char**` branch and the two `ndpointer`-dependent
generic branches of the source. -/
lemma ptrptr_typeDecl_eval (inner : CType) (n : String)
    (h : typedeclName (CType.typeDecl inner) = Except.ok (some n)) (ndp : Bool) :
    type_to_ctypes (CType.ptrDecl (CType.ptrDecl (CType.typeDecl inner))) ndp =
      if n = "char" then Except.ok "POINTER(ctypes.c_char_p)"
      else if ndp then
        Except.ok ("POINTER(ndpointer(" ++ c_type_name n ++ ", flags=\x27C_CONTIGUOUS\x27))")
      else Except.ok ("POINTER(POINTER(" ++ c_type_name n ++ "))") := by
  simp [type_to_ctypes, h, cTypeNameOpt]

/-- Translating every type of a parameter list succeeds when each
individual translation succeeds. -/
lemma params_total {params : List CType}
    (ih : ∀ p ∈ params, ∀ ndp, ∃ s, type_to_ctypes p ndp = Except.ok s) (ndp : Bool) :
    ∃ ss, params_to_ctypes params ndp = Except.ok ss := by
  induction params with
  | nil => exact ⟨[], rfl⟩
  | cons p rest iht =>
      obtain ⟨s, hs⟩ := ih p (List.mem_cons_self p rest) ndp
      obtain ⟨ss, hss⟩ := iht (fun q hq => ih q (List.mem_cons_of_mem p hq))
      exact ⟨s :: ss, by simp [params_to_ctypes, hs, hss]⟩

/-- Totality of the translator over the spec grammar: every `SpecSupported`
type expression translates successfully, for either value of the
`ndpointer` flag. -/
lemma supported_total {t : CType} (h : SpecSupported t) :
    ∀ ndp, ∃ s, type_to_ctypes t ndp = Except.ok s := by
  induction h with
  | bare hn => intro ndp; cases hn <;> exact ⟨_, rfl⟩
  | ptrNamed hn =>
      intro ndp
      cases hn with
      | ident n =>
          rw [ptr_typeDecl_eval (CType.identType [n]) n rfl ndp]
          split_ifs <;> exact ⟨_, rfl⟩
      | structRef n =>
          rw [ptr_typeDecl_eval (CType.structType (some n)) n rfl ndp]
          split_ifs <;> exact ⟨_, rfl⟩
      | enumRef n =>
          rw [ptr_typeDecl_eval (CType.enumType (some n)) n rfl ndp]
          split_ifs <;> exact ⟨_, rfl⟩
  | ptrPtrNamed hn =>
      intro ndp
      cases hn with
      | ident n =>
          rw [ptrptr_typeDecl_eval (CType.identType [n]) n rfl ndp]
          split_ifs <;> exact ⟨_, rfl⟩
      | structRef n =>
          rw [ptrptr_typeDecl_eval (CType.structType (some n)) n rfl ndp]
          split_ifs <;> exact ⟨_, rfl⟩
      | enumRef n =>
          rw [ptrptr_typeDecl_eval (CType.enumType (some n)) n rfl ndp]
          split_ifs <;> exact ⟨_, rfl⟩
  | @ptrFunc ret params hret hps ihret ihps =>
      intro ndp
      obtain ⟨rs, hrs⟩ := ihret ndp
      obtain ⟨ss, hss⟩ := params_total ihps ndp
      exact ⟨"CFUNCTYPE(" ++ rs ++ ", " ++ String.intercalate ", " ss ++ ")",
        by simp [type_to_ctypes, hrs, hss]⟩
  | @func ret params hret hps ihret ihps =>
      intro ndp
      obtain ⟨rs, hrs⟩ := ihret ndp
      obtain ⟨ss, hss⟩ := params_total ihps ndp
      exact ⟨"CFUNCTYPE(" ++ rs ++ ", " ++ String.intercalate ", " ss ++ ")",
        by simp [type_to_ctypes, hrs, hss]⟩
  | @array elem v helem ihelem =>
      intro ndp
      obtain ⟨s, hs⟩ := ihelem false
      exact ⟨s ++ " * " ++ v, by simp [type_to_ctypes, hs]⟩

/-- An enumerator list containing an enumerator without an explicit literal
`Constant` value makes `collectEnumValues` fail with the attribute error. -/
lemma collectEnumValues_fails (es : List Enumerator)
    (h : ∃ e ∈ es, ∀ v, e.value ≠ some (CExpr.constant v)) :
    collectEnumValues es = Except.error (PyError.attributeError "value") := by
  induction es with
  | nil => rcases h with ⟨e, he, _⟩; cases he
  | cons a as ih =>
      rcases h with ⟨e, he, hv⟩
      rcases List.mem_cons.mp he with rfl | hmem
      · rcases ha : e.value with _ | ce
        · simp [collectEnumValues, ha]
        · rcases ce with v | nm | ⟨o, l, r⟩
          · exact absurd ha (hv v)
          · simp [collectEnumValues, ha]
          · simp [collectEnumValues, ha]
      · rcases ha : a.value with _ | ce
        · simp [collectEnumValues, ha]
        · rcases ce with v | nm | ⟨o, l, r⟩
          · simp [collectEnumValues, ha, ih ⟨e, hmem, hv⟩]
          · simp [collectEnumValues, ha]
          · simp [collectEnumValues, ha]

/-- When every enumerator carries an explicit literal value,
`collectEnumValues` returns exactly those (name, literal) pairs in order. -/
lemma collectEnumValues_literals (es : List Enumerator) (vals : List (String × String))
    (h : enumLiterals es = some vals) : collectEnumValues es = Except.ok vals := by
  induction es generalizing vals with
  | nil => cases h; rfl
  | cons a as ih =>
      rcases ha : a.value with _ | ce
      · simp [enumLiterals, ha] at h
      · rcases ce with v | nm | ⟨o, l, r⟩
        · simp only [enumLiterals, ha, Option.map_eq_some'] at h
          obtain ⟨vs, hvs, rfl⟩ := h
          simp [collectEnumValues, ha, ih vs hvs]
        · simp [enumLiterals, ha] at h
        · simp [enumLiterals, ha] at h

/-- C1 (counterexample): a `#define` line with a macro name but no value
token — and a later well-formed `#define` line — makes the scan abort with
an `IndexError` instead of skipping the malformed line silently and
continuing. -/
theorem c1_counterexample :
  parseDefines ["#define RASCAL_MALFORMED", "#define RASCAL_VERSION_MAJOR 1"]
    = Except.error PyError.indexError := rfl

/-- C1 (amended): a raw line without `#define` is ignored; on a line
containing `#define`, a missing name token or a missing value token (for
any name other than the include guard `RASCALINE_H`) aborts the scan with
an `IndexError`; only a line providing both a name and a value contributes
an entry to the macro map; the include-guard name is skipped. -/
theorem c1_amended_scan (d : List (String × String)) (line : String) :
    (containsDefine line = false → scanLine d line = Except.ok d)
  ∧ (containsDefine line = true → (pySplit line)[1]? = none →
      scanLine d line = Except.error PyError.indexError)
  ∧ (∀ name, containsDefine line = true → (pySplit line)[1]? = some name →
      name ≠ "RASCALINE_H" → (pySplit line)[2]? = none →
      scanLine d line = Except.error PyError.indexError)
  ∧ (∀ name value, containsDefine line = true → (pySplit line)[1]? = some name →
      name ≠ "RASCALINE_H" → (pySplit line)[2]? = some value →
      scanLine d line = Except.ok (dictInsert d name value))
  ∧ (containsDefine line = true → (pySplit line)[1]? = some "RASCALINE_H" →
      scanLine d line = Except.ok d) := by
  refine ⟨?_, ?_, ?_, ?_, ?_⟩
  · intro h; simp [scanLine, h]
  · intro h h1; simp [scanLine, h, h1]
  · intro name h h1 h2 h3; simp [scanLine, h, h1, h2, h3]
  · intro name value h h1 h2 h3; simp [scanLine, h, h1, h2, h3]
  · intro h h1; simp [scanLine, h, h1]

/-- Witness for C1 (amended), at a well-formed and a malformed concrete
line. -/
theorem c1_amended_scan_witness :
    scanLine [] "#define RASCAL_VERSION_MAJOR 1" = Except.ok [("RASCAL_VERSION_MAJOR", "1")]
  ∧ scanLine [] "#define RASCAL_MALFORMED" = Except.error PyError.indexError :=
  ⟨(c1_amended_scan [] "#define RASCAL_VERSION_MAJOR 1").2.2.2.1 "RASCAL_VERSION_MAJOR" "1"
      rfl rfl (by decide) rfl,
   (c1_amended_scan [] "#define RASCAL_MALFORMED").2.2.1 "RASCAL_MALFORMED"
      rfl rfl (by decide) rfl⟩

/-- C2 (counterexample): a declaration named with the dependency prefix
`eqs_` is not collected — neither `visit_Decl` nor `visit_Typedef` records
it — refuting that collection accepts both configured library prefixes. -/
theorem c2_counterexample :
    pyStartswith "eqs_labels_t" "eqs_" = true
  ∧ (visit_Decl initVisitor "eqs_labels_t" (CType.typeDecl (CType.identType ["void"])) []).functions = []
  ∧ visit_Typedef initVisitor "eqs_labels_t" (TypedefBody.structBody []) = Except.ok initVisitor :=
  ⟨rfl, rfl, rfl⟩

/-- C2 (amended): a top-level declaration is collected if and only if its
name starts with the primary library prefix `rascal_`; every other
declaration — including those carrying the dependency prefix `eqs_` — is
skipped silently, without error. -/
theorem c2_amended_filter (st : Visitor) (name : String) (ret : CType)
    (params : List CType) (body : TypedefBody) :
    (pyStartswith name "rascal_" = true →
      (visit_Decl st name ret params).functions = st.functions ++ [Function.mk name ret params])
  ∧ (pyStartswith name "rascal_" = false → visit_Decl st name ret params = st)
  ∧ (pyStartswith name "rascal_" = false → visit_Typedef st name body = Except.ok st) := by
  refine ⟨?_, ?_, ?_⟩
  · intro h; simp [visit_Decl, h]
  · intro h; simp [visit_Decl, h]
  · intro h; simp [visit_Typedef, h]

/-- Witness for C2 (amended): a `rascal_`-prefixed function is recorded, an
unprefixed declaration leaves the visitor untouched. -/
theorem c2_amended_filter_witness :
    (visit_Decl initVisitor "rascal_calculator_free"
        (CType.typeDecl (CType.identType ["rascal_status_t"]))
        [CType.ptrDecl (CType.typeDecl (CType.identType ["rascal_calculator_t"]))]).functions
      = [Function.mk "rascal_calculator_free"
          (CType.typeDecl (CType.identType ["rascal_status_t"]))
          [CType.ptrDecl (CType.typeDecl (CType.identType ["rascal_calculator_t"]))]]
  ∧ visit_Decl initVisitor "uintptr_t" (CType.typeDecl (CType.identType ["void"])) [] = initVisitor :=
  ⟨(c2_amended_filter initVisitor "rascal_calculator_free" _ _ (TypedefBody.structBody [])).1 rfl,
   (c2_amended_filter initVisitor "uintptr_t" _ _ (TypedefBody.structBody [])).2.1 rfl⟩

/-- C3 (counterexample): a `TypeDecl` whose identifier list has two tokens
(`unsigned int`) aborts translation with an assertion failure, which is a
different failure mode from the unsupported-type `Exception`s the
translator is claimed to fail with exclusively. -/
theorem c3_counterexample :
    type_to_ctypes (CType.typeDecl (CType.identType ["unsigned", "int"])) false
      = Except.error PyError.assertionError
  ∧ PyError.assertionError ≠ PyError.exception "dynamically sized arrays are not supported"
  ∧ PyError.assertionError ≠ PyError.exception "Unknown type" :=
  ⟨rfl, by decide, by decide⟩

/-- C3 (amended): the translator succeeds on every type expression of the
supported shape grammar, and fails explicitly outside it, but not always
through the unsupported-type error: non-literal array dimensions and
unrecognized shapes (pointer chains deeper than two levels, bare unions)
raise the designated `Exception`s, while a `TypeDecl` over a union aborts
with an `AttributeError` and a `TypeDecl` whose identifier list does not
have exactly one token aborts with an assertion failure. -/
theorem c3_amended_total_and_failure_modes :
    (∀ t, SpecSupported t → ∀ ndp, ∃ s, type_to_ctypes t ndp = Except.ok s)
  ∧ (∀ ndp inner dim, (∀ v, dim ≠ some (CExpr.constant v)) →
      type_to_ctypes (CType.arrayDecl inner dim) ndp
        = Except.error (PyError.exception "dynamically sized arrays are not supported"))
  ∧ (∀ ndp t, type_to_ctypes (CType.ptrDecl (CType.ptrDecl (CType.ptrDecl t))) ndp
        = Except.error (PyError.exception "Unknown type"))
  ∧ (∀ ndp nm, type_to_ctypes (CType.unionType nm) ndp
        = Except.error (PyError.exception "Unknown type"))
  ∧ (∀ ndp nm, type_to_ctypes (CType.typeDecl (CType.unionType nm)) ndp
        = Except.error (PyError.attributeError "names"))
  ∧ (∀ ndp ns, ns.length ≠ 1 →
      type_to_ctypes (CType.typeDecl (CType.identType ns)) ndp
        = Except.error PyError.assertionError) := by
  refine ⟨fun t h => supported_total h, ?_, ?_, ?_, ?_, ?_⟩
  · intro ndp inner dim h
    rcases dim with _ | e
    · simp [type_to_ctypes]
    · rcases e with v | nm | ⟨o, a, b⟩
      · exact absurd rfl (h v)
      · simp [type_to_ctypes]
      · simp [type_to_ctypes]
  · intro ndp t; rfl
  · intro ndp nm; rfl
  · intro ndp nm; rfl
  · intro ndp ns h
    rcases ns with _ | ⟨a, _ | ⟨b, rest⟩⟩
    · rfl
    · exact absurd rfl h
    · rfl

/-- Witness for C3 (amended): a supported pointer-to-function type
translates successfully; a two-token identifier aborts with the assertion
failure; a computed array dimension aborts with the unsupported-type
error. -/
theorem c3_amended_total_and_failure_modes_witness :
    (∃ s, type_to_ctypes
        (CType.ptrDecl (CType.funcDecl (CType.typeDecl (CType.identType ["void"]))
          [CType.ptrDecl (CType.ptrDecl (CType.typeDecl (CType.identType ["double"])))])) true
        = Except.ok s)
  ∧ type_to_ctypes (CType.typeDecl (CType.identType ["unsigned", "int"])) true
      = Except.error PyError.assertionError
  ∧ type_to_ctypes (CType.arrayDecl (CType.typeDecl (CType.identType ["double"]))
        (some (CExpr.binaryOp "<<" (CExpr.constant "1") (CExpr.constant "2")))) true
      = Except.error (PyError.exception "dynamically sized arrays are not supported") :=
  ⟨c3_amended_total_and_failure_modes.1 _
      (SpecSupported.ptrFunc (SpecSupported.bare (NamedElem.ident "void"))
        (by
          intro p hp
          rw [List.mem_singleton] at hp
          subst hp
          exact SpecSupported.ptrPtrNamed (NamedElem.ident "double"))) true,
   c3_amended_total_and_failure_modes.2.2.2.2.2 true ["unsigned", "int"] (by decide),
   c3_amended_total_and_failure_modes.2.1 true (CType.typeDecl (CType.identType ["double"]))
      (some (CExpr.binaryOp "<<" (CExpr.constant "1") (CExpr.constant "2")))
      (fun v h => by cases h)⟩

/-- C4: a fixed-size array with a literal `Constant` dimension translates
to the ctypes fixed-array form `elem * size` with the literal size text,
and any non-`Constant` (computed or absent) dimension fails with the
unsupported-type error, in every translation context. -/
theorem c4_array_dimension :
    (∀ ndp inner v s, type_to_ctypes inner false = Except.ok s →
      type_to_ctypes (CType.arrayDecl inner (some (CExpr.constant v))) ndp
        = Except.ok (s ++ " * " ++ v))
  ∧ (∀ ndp inner dim, (∀ v, dim ≠ some (CExpr.constant v)) →
      type_to_ctypes (CType.arrayDecl inner dim) ndp
        = Except.error (PyError.exception "dynamically sized arrays are not supported")) := by
  constructor
  · intro ndp inner v s h; simp [type_to_ctypes, h]
  · intro ndp inner dim h
    rcases dim with _ | e
    · simp [type_to_ctypes]
    · rcases e with v | nm | ⟨o, a, b⟩
      · exact absurd rfl (h v)
      · simp [type_to_ctypes]
      · simp [type_to_ctypes]

/-- Witness for C4: `double[3]` yields the fixed array, `double[n]` fails. -/
theorem c4_array_dimension_witness :
    type_to_ctypes
      (CType.arrayDecl (CType.typeDecl (CType.identType ["double"])) (some (CExpr.constant "3"))) false
      = Except.ok "ctypes.c_double * 3"
  ∧ type_to_ctypes
      (CType.arrayDecl (CType.typeDecl (CType.identType ["double"])) (some (CExpr.identifier "n"))) false
      = Except.error (PyError.exception "dynamically sized arrays are not supported") :=
  ⟨c4_array_dimension.1 false (CType.typeDecl (CType.identType ["double"])) "3" "ctypes.c_double" rfl,
   c4_array_dimension.2 false (CType.typeDecl (CType.identType ["double"]))
     (some (CExpr.identifier "n")) (fun v h => by cases h)⟩

/-- C5: a pointer to `char` always translates to the string-pointer
descriptor `ctypes.c_char_p` and a pointer to pointer to `char` always to
the string-array descriptor `POINTER(ctypes.c_char_p)` — for both values of
the `ndpointer` flag and in every concrete context (struct field, function
argument, function return). -/
theorem c5_string_conventions (ndp : Bool) :
    type_to_ctypes (CType.ptrDecl (CType.typeDecl (CType.identType ["char"]))) ndp
      = Except.ok "ctypes.c_char_p"
  ∧ type_to_ctypes (CType.ptrDecl (CType.ptrDecl (CType.typeDecl (CType.identType ["char"])))) ndp
      = Except.ok "POINTER(ctypes.c_char_p)"
  ∧ struct_field_ctype (CType.ptrDecl (CType.typeDecl (CType.identType ["char"])))
      = Except.ok "ctypes.c_char_p"
  ∧ struct_field_ctype (CType.ptrDecl (CType.ptrDecl (CType.typeDecl (CType.identType ["char"]))))
      = Except.ok "POINTER(ctypes.c_char_p)"
  ∧ function_arg_ctype (CType.ptrDecl (CType.typeDecl (CType.identType ["char"])))
      = Except.ok "ctypes.c_char_p"
  ∧ function_arg_ctype (CType.ptrDecl (CType.ptrDecl (CType.typeDecl (CType.identType ["char"]))))
      = Except.ok "POINTER(ctypes.c_char_p)"
  ∧ function_restype (CType.ptrDecl (CType.typeDecl (CType.identType ["char"])))
      = Except.ok "ctypes.c_char_p"
  ∧ function_restype (CType.ptrDecl (CType.ptrDecl (CType.typeDecl (CType.identType ["char"]))))
      = Except.ok "POINTER(ctypes.c_char_p)" := by
  cases ndp <;> exact ⟨rfl, rfl, rfl, rfl, rfl, rfl, rfl, rfl⟩

/-- C6: successful parameter translation produces exactly the translated
type of each declared parameter, in declaration order; a sole parameter
translating to `None` (a single `void` parameter) collapses to the empty
argument list; any other successfully translated list is kept as is. -/
theorem c6_void_collapse :
    (∀ ndp args strs, params_to_ctypes args ndp = Except.ok strs →
      strs.length = args.length ∧
      ∀ i (hi : i < args.length) (hs : i < strs.length),
        type_to_ctypes (args.get ⟨i, hi⟩) ndp = Except.ok (strs.get ⟨i, hs⟩))
  ∧ (∀ p, type_to_ctypes p false = Except.ok "None" → function_argtypes [p] = Except.ok [])
  ∧ (∀ args strs, params_to_ctypes args false = Except.ok strs → strs ≠ ["None"] →
      function_argtypes args = Except.ok strs) := by
  refine ⟨?_, ?_, ?_⟩
  · intro ndp args
    induction args with
    | nil =>
        intro strs h
        cases h
        exact ⟨rfl, fun i hi _ => absurd hi (Nat.not_lt_zero i)⟩
    | cons p rest ih =>
        intro strs h
        rcases hs : type_to_ctypes p ndp with e | s <;> rw [params_to_ctypes, hs] at h
        · cases h
        rcases hr : params_to_ctypes rest ndp with e | ss <;> rw [hr] at h
        · cases h
        cases h
        obtain ⟨hlen, hidx⟩ := ih ss hr
        refine ⟨by simp [hlen], ?_⟩
        intro i hi hsi
        cases i with
        | zero => simpa using hs
        | succ j => exact hidx j (Nat.lt_of_succ_lt_succ hi) (Nat.lt_of_succ_lt_succ hsi)
  · intro p h; simp [function_argtypes, params_to_ctypes, h]
  · intro args strs h hne; simp [function_argtypes, h, hne]

/-- Witness for C6: a sole `void` parameter collapses to an empty argtypes
list; a two-parameter function keeps both translated types in order. -/
theorem c6_void_collapse_witness :
    function_argtypes [CType.typeDecl (CType.identType ["void"])] = Except.ok []
  ∧ function_argtypes [CType.ptrDecl (CType.typeDecl (CType.identType ["rascal_calculator_t"])),
      CType.typeDecl (CType.identType ["double"])]
      = Except.ok ["POINTER(rascal_calculator_t)", "ctypes.c_double"] :=
  ⟨c6_void_collapse.2.1 _ rfl,
   c6_void_collapse.2.2 _ _ rfl (by decide)⟩

/-- C7: a collected function is marked for the result-checking adapter
exactly when its translated return type is the designated status type
`rascal_status_t`; any other translated return type is exposed unwrapped. -/
theorem c7_status_wrapping (ret : CType) (r : String)
    (h : type_to_ctypes ret false = Except.ok r) :
    (r = "rascal_status_t" → function_restype ret = Except.ok "_check_rascal_status_t")
  ∧ (r ≠ "rascal_status_t" → function_restype ret = Except.ok r) := by
  constructor
  · intro hr; simp [function_restype, h, hr]
  · intro hr; simp [function_restype, h, hr]

/-- Witness for C7: a `rascal_status_t` return is wrapped, a `uint64_t`
return is exposed unwrapped. -/
theorem c7_status_wrapping_witness :
    function_restype (CType.typeDecl (CType.identType ["rascal_status_t"]))
      = Except.ok "_check_rascal_status_t"
  ∧ function_restype (CType.typeDecl (CType.identType ["uint64_t"]))
      = Except.ok "ctypes.c_uint64" :=
  ⟨(c7_status_wrapping (CType.typeDecl (CType.identType ["rascal_status_t"]))
      "rascal_status_t" rfl).1 rfl,
   (c7_status_wrapping (CType.typeDecl (CType.identType ["uint64_t"]))
      "ctypes.c_uint64" rfl).2 (by decide)⟩

/-- C8: a pointer to pointer to a named non-`char` element resolves the
element name through `c_type_name` and yields the contiguous
`ndpointer` buffer form in the struct-field context, and the plain nested
`POINTER(POINTER(...))` form in the function argument and return
contexts. -/
theorem c8_double_pointer_contexts (n : String) (hn : n ≠ "char") :
    struct_field_ctype (CType.ptrDecl (CType.ptrDecl (CType.typeDecl (CType.identType [n]))))
      = Except.ok ("POINTER(ndpointer(" ++ c_type_name n ++ ", flags=\x27C_CONTIGUOUS\x27))")
  ∧ function_arg_ctype (CType.ptrDecl (CType.ptrDecl (CType.typeDecl (CType.identType [n]))))
      = Except.ok ("POINTER(POINTER(" ++ c_type_name n ++ "))")
  ∧ type_to_ctypes (CType.ptrDecl (CType.ptrDecl (CType.typeDecl (CType.identType [n])))) false
      = Except.ok ("POINTER(POINTER(" ++ c_type_name n ++ "))") := by
  refine ⟨?_, ?_, ?_⟩
  · rw [struct_field_ctype, ptrptr_typeDecl_eval (CType.identType [n]) n rfl true]; simp [hn]
  · rw [function_arg_ctype, ptrptr_typeDecl_eval (CType.identType [n]) n rfl false]; simp [hn]
  · rw [ptrptr_typeDecl_eval (CType.identType [n]) n rfl false]; simp [hn]

/-- Witness for C8, at the concrete element type `rascal_system_t`. -/
theorem c8_double_pointer_contexts_witness :
    struct_field_ctype
      (CType.ptrDecl (CType.ptrDecl (CType.typeDecl (CType.identType ["rascal_system_t"]))))
      = Except.ok "POINTER(ndpointer(rascal_system_t, flags=\x27C_CONTIGUOUS\x27))"
  ∧ function_arg_ctype
      (CType.ptrDecl (CType.ptrDecl (CType.typeDecl (CType.identType ["rascal_system_t"]))))
      = Except.ok "POINTER(POINTER(rascal_system_t))" :=
  ⟨(c8_double_pointer_contexts "rascal_system_t" (by decide)).1,
   (c8_double_pointer_contexts "rascal_system_t" (by decide)).2.1⟩

/-- C9: every name carrying the primary prefix `rascal_` passes through the
name resolver unchanged, except the designated enum name
`rascal_indexes_kind`, which maps to the plain integer `ctypes.c_int`. -/
theorem c9_name_resolver (n : String) (h : pyStartswith n "rascal_" = true) :
    c_type_name n = if n = "rascal_indexes_kind" then "ctypes.c_int" else n := by
  simp [c_type_name, h]

/-- Witness for C9: the designated enum name maps to the integer type, any
other `rascal_`-prefixed name passes through. -/
theorem c9_name_resolver_witness :
    c_type_name "rascal_indexes_kind" = "ctypes.c_int"
  ∧ c_type_name "rascal_calculator_t" = "rascal_calculator_t" :=
  ⟨c9_name_resolver "rascal_indexes_kind" rfl,
   c9_name_resolver "rascal_calculator_t" rfl⟩

/-- C10: collecting a `rascal_`-prefixed typedef enum fails with an
`AttributeError` — not a translation `Exception` — as soon as some
enumerator has an omitted (implicit) value, and when every enumerator
carries an explicit literal value the collected members are exactly the
(name, literal) pairs as written, in order, with no evaluation. -/
theorem c10_enum_explicit_literals :
    (∀ st name es, pyStartswith name "rascal_" = true → (∃ e ∈ es, e.value = none) →
      visit_Typedef st name (TypedefBody.enumBody es)
        = Except.error (PyError.attributeError "value"))
  ∧ (∀ st name es vals, pyStartswith name "rascal_" = true → enumLiterals es = some vals →
      visit_Typedef st name (TypedefBody.enumBody es)
        = Except.ok (Visitor.mk st.functions (st.enums ++ [Enum.mk name vals])
            st.structs st.types st.defines))
  ∧ (∀ msg, PyError.attributeError "value" ≠ PyError.exception msg) := by
  refine ⟨?_, ?_, ?_⟩
  · intro st name es h he
    have hc : collectEnumValues es = Except.error (PyError.attributeError "value") := by
      refine collectEnumValues_fails es ?_
      rcases he with ⟨e, he1, he2⟩
      exact ⟨e, he1, fun v hv => by rw [he2] at hv; cases hv⟩
    simp [visit_Typedef, h, hc]
  · intro st name es vals h hl
    simp [visit_Typedef, h, collectEnumValues_literals es vals hl]
  · intro msg h; cases h

/-- Witness for C10: an all-literal enum is collected verbatim, an
enumerator with an omitted value makes collection fail. -/
theorem c10_enum_explicit_literals_witness :
    visit_Typedef initVisitor "rascal_indexes_kind"
      (TypedefBody.enumBody
        [Enumerator.mk "RASCAL_INDEXES_CENTERS" (some (CExpr.constant "0")),
         Enumerator.mk "RASCAL_INDEXES_NEIGHBORS" (some (CExpr.constant "1"))])
      = Except.ok (Visitor.mk [] [Enum.mk "rascal_indexes_kind"
          [("RASCAL_INDEXES_CENTERS", "0"), ("RASCAL_INDEXES_NEIGHBORS", "1")]] [] [] [])
  ∧ visit_Typedef initVisitor "rascal_broken"
      (TypedefBody.enumBody [Enumerator.mk "RASCAL_IMPLICIT" none])
      = Except.error (PyError.attributeError "value") :=
  ⟨c10_enum_explicit_literals.2.1 initVisitor "rascal_indexes_kind"
      [Enumerator.mk "RASCAL_INDEXES_CENTERS" (some (CExpr.constant "0")),
       Enumerator.mk "RASCAL_INDEXES_NEIGHBORS" (some (CExpr.constant "1"))]
      [("RASCAL_INDEXES_CENTERS", "0"), ("RASCAL_INDEXES_NEIGHBORS", "1")] rfl rfl,
   c10_enum_explicit_literals.1 initVisitor "rascal_broken"
      [Enumerator.mk "RASCAL_IMPLICIT" none] rfl
      ⟨Enumerator.mk "RASCAL_IMPLICIT" none, List.mem_cons_self _ _, rfl⟩⟩

end GenDecl
